import Mathlib

/-!
Shallow embedding of the `profiler` repository's decode core
(`src/perf.rs` and `src/tracepoint.rs`), together with theorems settling
the behavioural claims about `read_tracepoint_file` and `ProfilingResult`.

Machine `u64` values are modelled as `Nat` (no overflow-relevant arithmetic
occurs in the modelled code paths).  Rust's `f64` ratio computations in
`ProfilingResult` are modelled over `ℚ`: every division appearing in the
source is of the exact-representable kind at the stated contract points,
and the zero-denominator guards are pure control flow, independent of the
float representation.  External library state (the `tracepoint_perf` reader
and the `tracepoint_decode` enumerator) is modelled at its interface
boundary as explicit data consumed by the control flow that lives in this
repository's source.
-/

namespace Profiler

/-- Model of `ProfilingResult` (src/perf.rs, lines 63-70): five `u64`
counters collected by the perf session. -/
structure ProfilingResult where
  cpu_cycles : Nat
  instructions : Nat
  cache_references : Nat
  cache_misses : Nat
  duration_secs : Nat
deriving Repr, DecidableEq

/-- `ProfilingResult::ipc` (src/perf.rs, lines 74-80): returns 0 when
`cpu_cycles == 0`, otherwise `instructions / cpu_cycles`. -/
def ProfilingResult.ipc (r : ProfilingResult) : ℚ :=
  if r.cpu_cycles = 0 then 0
  else (r.instructions : ℚ) / (r.cpu_cycles : ℚ)

/-- `ProfilingResult::cache_miss_rate` (src/perf.rs, lines 83-89): returns 0
when `cache_references == 0`, otherwise `cache_misses / cache_references * 100`. -/
def ProfilingResult.cache_miss_rate (r : ProfilingResult) : ℚ :=
  if r.cache_references = 0 then 0
  else (r.cache_misses : ℚ) / (r.cache_references : ℚ) * 100

/-- `ProfilingResult::cycles_per_second` (src/perf.rs, lines 92-98): returns 0
when `duration_secs == 0`, otherwise `cpu_cycles / duration_secs`. -/
def ProfilingResult.cycles_per_second (r : ProfilingResult) : ℚ :=
  if r.duration_secs = 0 then 0
  else (r.cpu_cycles : ℚ) / (r.duration_secs : ℚ)

/-- The record type tag checked at src/tracepoint.rs line 99
(`event.header.ty != PerfEventHeaderType::Sample`).  Only the
`Sample` / non-`Sample` distinction drives the control flow; the other
perf record kinds are collapsed into representative constructors plus a
numeric catch-all, matching the library enum at its interface. -/
inductive PerfEventHeaderType where
  | Sample
  | Mmap
  | Lost
  | Comm
  | Fork
  | Throttle
  | otherTy (n : Nat)
deriving Repr, DecidableEq

/-- The header of one perf event record: type tag and declared byte size
(the two fields the source reads: lines 99, 105-106). -/
structure PerfEventHeader where
  ty : PerfEventHeaderType
  size : Nat
deriving Repr, DecidableEq

/-- One field descriptor of a kernel Field Format, paired with the display
string that `field_format.get_field_value(&sample_event_info).display()`
produces for the sample under consideration (the value computation itself
lives in the `tracepoint_decode` library, outside this repository; at the
interface it is a pure function of the field and the sample payload, so it
is carried as data per sample). -/
structure FieldFormat where
  name : String
  display_value : String
deriving Repr, DecidableEq

/-- Model of the kernel Field Format attached to an event descriptor:
its declared common-field count (read from the format itself via
`common_field_count()`) and its ordered field list (`fields()`). -/
structure EventFormat where
  common_field_count : Nat
  fields : List FieldFormat
deriving Repr, DecidableEq

/-- Sample event info as consumed by src/tracepoint.rs lines 128-168,
at the `tracepoint_decode` interface boundary:
`name` is `sample_event_info.name()`;
`ehEnumerate` models the result of
`enumerator_ctx.enumerate(&sample_event_info)` — `some items` when the
payload carries self-describing EventHeader metadata (items = the chain of
top-level field display strings the enumerator walks), `none` when
enumerator construction fails;
`format` models `sample_event_info.format()`. -/
structure SampleEventInfo where
  name : String
  ehEnumerate : Option (List String)
  format : Option EventFormat
deriving Repr, DecidableEq

/-- Outcome of the dual-schema field decode for one sample: Stage A
(self-describing metadata), Stage B (kernel Field Format), or neither. -/
inductive DecodeOutcome where
  | metadataDecoded (fields : List String)
  | formatDecoded (fields : List FieldFormat)
  | undecodable
deriving Repr, DecidableEq

/-- Stage A field-print loop (src/tracepoint.rs lines 144-155): starting
from the first top-level item, print the current item and advance to its
next sibling while the bound `field_count < 3` holds.  The enumerator's
sibling chain is the list; an empty chain means the state fell below
`BeforeFirstItem` immediately and nothing is printed. -/
def stageALoop : List String → Nat → List String
  | [], _ => []
  | item :: rest, field_count =>
    if field_count < 3 then item :: stageALoop rest (field_count + 1)
    else []

/-- Stage B field loop (src/tracepoint.rs lines 159-167): iterate the
format's fields after `.skip(skip_fields)`, with `field_count` starting at
0 after the skip, breaking when `field_count >= 3`, emitting each field's
name and display value. -/
def stageBLoop : List FieldFormat → Nat → List FieldFormat
  | [], _ => []
  | f :: rest, field_count =>
    if field_count ≥ 3 then []
    else f :: stageBLoop rest (field_count + 1)

/-- The fields Stage B emits for a format: skip the format's declared
common-field count, then run the bounded loop
(src/tracepoint.rs lines 158-167). -/
def stageBFields (fmt : EventFormat) : List FieldFormat :=
  stageBLoop (fmt.fields.drop fmt.common_field_count) 0

/-- The dual-schema field decode of one resolved sample
(src/tracepoint.rs lines 136-168): first attempt Stage A
(`if let Ok(mut enumerator) = enumerator_ctx.enumerate(...)`); only when
that construction fails, attempt Stage B
(`else if let Some(event_format) = sample_event_info.format()`); when
neither applies the sample produces no fields and no error. -/
def decodeSample (info : SampleEventInfo) : DecodeOutcome :=
  match info.ehEnumerate with
  | some items => DecodeOutcome.metadataDecoded (stageALoop items 0)
  | none =>
    match info.format with
    | some fmt => DecodeOutcome.formatDecoded (stageBFields fmt)
    | none => DecodeOutcome.undecodable

/-- One record as yielded by the event stream cursor.  `sampleInfo`
models the result of `reader.get_sample_event_info(&event)` for this
record (consulted only on the Sample path): `Except.error e` is the
per-record resolution failure (`UnresolvedSample`), carrying the error's
display string. -/
structure EventRecord where
  header : PerfEventHeader
  sampleInfo : Except String SampleEventInfo
deriving Repr

/-- One step of the cursor stream: `reader.move_next_event()` either
yields a record (`Ok(true)` followed by `current_event()`) or fails with a
stream error (`Err(e)`); the end of the list is `Ok(false)` (EOF). -/
inductive CursorStep where
  | record (ev : EventRecord)
  | streamError (e : String)
deriving Repr

/-- Model of `TracepointStats` (src/tracepoint.rs lines 13-17). -/
structure TracepointStats where
  total_events : Nat
  sample_events : Nat
  non_sample_events : Nat
deriving Repr, DecidableEq

/-- `TracepointStats::default()`: all counters zero. -/
def TracepointStats.default : TracepointStats :=
  { total_events := 0, sample_events := 0, non_sample_events := 0 }

/-- Console lines the decode loop emits beyond the summary (presentation
record of the per-record decisions): a bounded note per non-sample record,
a bounded per-sample resolution-failure notice, and the bounded per-sample
decode output. -/
inductive LogEntry where
  | nonSampleNote (ty : PerfEventHeaderType) (size : Nat)
  | sampleInfoError (idx : Nat) (e : String)
  | sampleDecoded (idx : Nat) (name : String) (o : DecodeOutcome)
deriving Repr, DecidableEq

/-- The decode loop of `read_tracepoint_file`
(src/tracepoint.rs lines 87-171), with the cursor stream made explicit.
State threaded exactly as in the source: `stats`, the separate
`sample_count` used for print gating, and the accumulated console log.
A `streamError` step aborts via `anyhow::bail!("Error reading event: ...")`
— note the accumulated state is discarded by that early return. -/
def processLoop : List CursorStep → TracepointStats → Nat → List LogEntry →
    Except String (TracepointStats × List LogEntry)
  | [], stats, _, log => Except.ok (stats, log)
  | CursorStep.streamError e :: _, _, _, _ =>
    Except.error ("Error reading event: " ++ e)
  | CursorStep.record ev :: rest, stats, sample_count, log =>
    let stats := { stats with total_events := stats.total_events + 1 }
    if ev.header.ty ≠ PerfEventHeaderType.Sample then
      let stats := { stats with non_sample_events := stats.non_sample_events + 1 }
      let log := if stats.non_sample_events ≤ 3 then
          log ++ [LogEntry.nonSampleNote ev.header.ty ev.header.size]
        else log
      processLoop rest stats sample_count log
    else
      let stats := { stats with sample_events := stats.sample_events + 1 }
      let sample_count := sample_count + 1
      match ev.sampleInfo with
      | Except.error e =>
        let log := if sample_count ≤ 5 then
            log ++ [LogEntry.sampleInfoError sample_count e]
          else log
        processLoop rest stats sample_count log
      | Except.ok info =>
        let log := if sample_count ≤ 5 then
            log ++ [LogEntry.sampleDecoded sample_count info.name (decodeSample info)]
          else log
        processLoop rest stats sample_count log

/-- One event descriptor from the file header
(src/tracepoint.rs lines 70-75): name and id list. -/
structure EventDesc where
  name : String
  ids : List Nat
deriving Repr, DecidableEq

/-- The successfully opened capture container at the `tracepoint_perf`
interface boundary: the header byte-strings the source reads, the event
descriptor list, and the time-ordered cursor stream. -/
structure PerfDataFile where
  hostname : List Nat
  os_release : List Nat
  arch : List Nat
  event_desc_list : List EventDesc
  events : List CursorStep
deriving Repr

/-- The distinct failure channels of `read_tracepoint_file`, in source
order: the explicit `File not found` bail (line 31), the
`Failed to open perf.data file` context on `open_file` (line 43), and the
`Error reading event` bail inside the loop (line 90). -/
inductive ReadError where
  | fileNotFound (path : String)
  | openFailed (cause : String)
  | streamAbort (msg : String)
deriving Repr, DecidableEq

/-- The environment `read_tracepoint_file` consults: whether a path exists
on the filesystem (`Path::new(file_path).exists()`), and what
`reader.open_file(file_path, PerfDataFileEventOrder::Time)` yields for a
path (the parsed container, or the open/format error). -/
structure FsWorld where
  pathExists : String → Bool
  openFile : String → Except String PerfDataFile

/-- Model of `read_tracepoint_file` (src/tracepoint.rs lines 28-183):
bail with `File not found` when the path does not exist, before any open
or parse; open the container (failure gets the
`Failed to open perf.data file` context); then drive the decode loop from
`TracepointStats::default()` and return the statistics. -/
def read_tracepoint_file (w : FsWorld) (file_path : String) :
    Except ReadError TracepointStats :=
  if ¬ w.pathExists file_path then
    Except.error (ReadError.fileNotFound file_path)
  else
    match w.openFile file_path with
    | Except.error e => Except.error (ReadError.openFailed e)
    | Except.ok file =>
      match processLoop file.events TracepointStats.default 0 [] with
      | Except.error m => Except.error (ReadError.streamAbort m)
      | Except.ok (stats, _) => Except.ok stats

/-! ### Concrete fixtures used by the witness theorems -/

/-- A kernel Field Format with 4 declared common fields followed by
type-specific fields, in the shape of a sched_switch tracepoint format. -/
def schedFormat : EventFormat :=
  { common_field_count := 4,
    fields :=
      [{ name := "common_type", display_value := "1" },
       { name := "common_flags", display_value := "0" },
       { name := "common_preempt_count", display_value := "0" },
       { name := "common_pid", display_value := "7" },
       { name := "prev_comm", display_value := "bash" },
       { name := "prev_pid", display_value := "7" },
       { name := "prev_prio", display_value := "120" },
       { name := "next_comm", display_value := "swapper" }] }

/-- A resolved sample with no self-describing metadata and a Field Format
(Stage B applies). -/
def resolvedSample : SampleEventInfo :=
  { name := "sched:sched_switch", ehEnumerate := none, format := some schedFormat }

/-- A resolved sample carrying self-describing EventHeader metadata
(Stage A applies). -/
def metadataSample : SampleEventInfo :=
  { name := "MyProvider:MyEvent",
    ehEnumerate := some ["Pid", "Tid", "Name", "Extra"],
    format := none }

/-- A resolved sample with neither self-describing metadata nor a Field
Format (neither stage applies). -/
def bareSample : SampleEventInfo :=
  { name := "raw", ehEnumerate := none, format := none }

/-- A non-sample record (an mmap record). -/
def nonSampleRec : EventRecord :=
  { header := { ty := PerfEventHeaderType.Mmap, size := 40 },
    sampleInfo := Except.error "not a sample" }

/-- A sample record whose embedded identifier resolves to
`resolvedSample`. -/
def sampleRecB : EventRecord :=
  { header := { ty := PerfEventHeaderType.Sample, size := 96 },
    sampleInfo := Except.ok resolvedSample }

/-- A sample record whose embedded identifier matches no descriptor:
`get_sample_event_info` fails for it. -/
def sampleRecA : EventRecord :=
  { header := { ty := PerfEventHeaderType.Sample, size := 64 },
    sampleInfo := Except.error "unknown id" }

/-- A two-record stream: one non-sample record then one resolvable
sample record. -/
def mixedStream : List CursorStep :=
  [CursorStep.record nonSampleRec, CursorStep.record sampleRecB]

/-- The console log `processLoop` produces on `mixedStream`. -/
def mixedLog : List LogEntry :=
  [LogEntry.nonSampleNote PerfEventHeaderType.Mmap 40,
   LogEntry.sampleDecoded 1 "sched:sched_switch"
     (DecodeOutcome.formatDecoded
       [{ name := "prev_comm", display_value := "bash" },
        { name := "prev_pid", display_value := "7" },
        { name := "prev_prio", display_value := "120" }])]

/-- A header-only capture file: no event records. -/
def emptyFile : PerfDataFile :=
  { hostname := [], os_release := [], arch := [], event_desc_list := [],
    events := [] }

/-- A capture file with one processable record before a framing
corruption. -/
def corruptedAfterOneFile : PerfDataFile :=
  { hostname := [], os_release := [], arch := [], event_desc_list := [],
    events := [CursorStep.record sampleRecA, CursorStep.streamError "bad framing"] }

/-- A capture file corrupted at its very first record. -/
def corruptedAtStartFile : PerfDataFile :=
  { hostname := [], os_release := [], arch := [], event_desc_list := [],
    events := [CursorStep.streamError "bad framing"] }

/-- A world where every path exists and opens to `corruptedAfterOneFile`. -/
def corruptedAfterOneWorld : FsWorld :=
  { pathExists := fun _ => true,
    openFile := fun _ => Except.ok corruptedAfterOneFile }

/-- A world where every path exists and opens to `corruptedAtStartFile`. -/
def corruptedAtStartWorld : FsWorld :=
  { pathExists := fun _ => true,
    openFile := fun _ => Except.ok corruptedAtStartFile }

/-- A world where no path exists (the open result is irrelevant: it is
never consulted). -/
def missingWorld : FsWorld :=
  { pathExists := fun _ => false,
    openFile := fun _ => Except.ok emptyFile }

/-- A world holding the header-only file at "empty.data" and nothing
else. -/
def presentWorld : FsWorld :=
  { pathExists := fun p => p == "empty.data",
    openFile := fun p =>
      if p == "empty.data" then Except.ok emptyFile
      else Except.error "no such file" }

/-- A world whose path exists but whose container cannot be opened
(e.g. corrupt header magic). -/
def badOpenWorld : FsWorld :=
  { pathExists := fun _ => true,
    openFile := fun _ => Except.error "bad magic" }

/-! ### Helper lemmas -/

/-- The Stage B loop with running counter `c` keeps the first `3 - c`
fields: the `field_count >= 3` break makes it a bounded take. -/
theorem stageBLoop_eq_take :
    ∀ (xs : List FieldFormat) (c : Nat), stageBLoop xs c = xs.take (3 - c) := by
  intro xs
  induction xs with
  | nil => intro c; simp [stageBLoop]
  | cons f rest ih =>
    intro c
    by_cases h : c ≥ 3
    · simp [stageBLoop, h, Nat.sub_eq_zero_of_le h]
    · have h3 : 3 - c = (3 - (c + 1)) + 1 := by omega
      simp only [stageBLoop, if_neg h, h3, List.take_succ_cons, ih]

/-! ### Claims -/

/-- C8: `ipc` returns exactly 0 when `cpu_cycles = 0`,
`cache_miss_rate` returns exactly 0 when `cache_references = 0`, and
`cycles_per_second` returns exactly 0 when `duration_secs = 0`, for any
numerator; when the respective denominator is nonzero the results equal
`instructions / cpu_cycles`, `cache_misses / cache_references * 100` and
`cpu_cycles / duration_secs`. -/
theorem c8_ratio_zero_guards (r : ProfilingResult) :
    (r.cpu_cycles = 0 → r.ipc = 0) ∧
    (r.cache_references = 0 → r.cache_miss_rate = 0) ∧
    (r.duration_secs = 0 → r.cycles_per_second = 0) ∧
    (r.cpu_cycles ≠ 0 → r.ipc = (r.instructions : ℚ) / (r.cpu_cycles : ℚ)) ∧
    (r.cache_references ≠ 0 →
      r.cache_miss_rate = (r.cache_misses : ℚ) / (r.cache_references : ℚ) * 100) ∧
    (r.duration_secs ≠ 0 →
      r.cycles_per_second = (r.cpu_cycles : ℚ) / (r.duration_secs : ℚ)) := by
  refine ⟨?_, ?_, ?_, ?_, ?_, ?_⟩ <;> intro h <;>
    simp [ProfilingResult.ipc, ProfilingResult.cache_miss_rate,
      ProfilingResult.cycles_per_second, h]

/-- C8 witness: all three guards fire on a result whose three denominators
are zero (with nonzero numerators), and on the spec's example values
(cycles=1000, instructions=500, refs=100, misses=10, duration=2) the
ratios are exactly 1/2, 10 and 500. -/
theorem c8_ratio_witness :
    (ProfilingResult.mk 0 500 0 10 0).ipc = 0 ∧
    (ProfilingResult.mk 0 500 0 10 0).cache_miss_rate = 0 ∧
    (ProfilingResult.mk 0 500 0 10 0).cycles_per_second = 0 ∧
    (ProfilingResult.mk 1000 500 100 10 2).ipc = 1 / 2 ∧
    (ProfilingResult.mk 1000 500 100 10 2).cache_miss_rate = 10 ∧
    (ProfilingResult.mk 1000 500 100 10 2).cycles_per_second = 500 := by
  refine ⟨(c8_ratio_zero_guards _).1 rfl, (c8_ratio_zero_guards _).2.1 rfl,
    (c8_ratio_zero_guards _).2.2.1 rfl, ?_, ?_, ?_⟩
  · rw [(c8_ratio_zero_guards _).2.2.2.1 (by decide)]; norm_num
  · rw [(c8_ratio_zero_guards _).2.2.2.2.1 (by decide)]; norm_num
  · rw [(c8_ratio_zero_guards _).2.2.2.2.2 (by decide)]; norm_num

/-- C2: Stage A is attempted first — whenever the enumerator construction
succeeds the outcome is the Stage A decode; Stage B output can only arise
when the enumerator construction failed; when Stage A fails and a Field
Format is present the outcome is the Stage B decode; and when neither
applies the outcome is `undecodable` (no fields, and no error: the decode
is total). -/
theorem c2_stage_order (info : SampleEventInfo) :
    (∀ items, info.ehEnumerate = some items →
      decodeSample info = DecodeOutcome.metadataDecoded (stageALoop items 0)) ∧
    (∀ fields, decodeSample info = DecodeOutcome.formatDecoded fields →
      info.ehEnumerate = none) ∧
    (∀ fmt, info.ehEnumerate = none → info.format = some fmt →
      decodeSample info = DecodeOutcome.formatDecoded (stageBFields fmt)) ∧
    (info.ehEnumerate = none → info.format = none →
      decodeSample info = DecodeOutcome.undecodable) := by
  refine ⟨?_, ?_, ?_, ?_⟩
  · intro items h; simp [decodeSample, h]
  · intro fields h
    cases he : info.ehEnumerate with
    | none => rfl
    | some items => rw [decodeSample, he] at h; simp at h
  · intro fmt h1 h2; simp [decodeSample, h1, h2]
  · intro h1 h2; simp [decodeSample, h1, h2]

/-- C2 witness: on a sample with self-describing metadata the outcome is
Stage A's; on a sample where Stage B's outcome arises the enumerator had
failed; on a sample with no metadata but a format the outcome is Stage B's;
and on a sample with neither, the outcome is `undecodable`. -/
theorem c2_stage_order_witness :
    decodeSample metadataSample = DecodeOutcome.metadataDecoded ["Pid", "Tid", "Name"] ∧
    resolvedSample.ehEnumerate = none ∧
    decodeSample resolvedSample = DecodeOutcome.formatDecoded (stageBFields schedFormat) ∧
    decodeSample bareSample = DecodeOutcome.undecodable := by
  refine ⟨?_, ?_, ?_, ?_⟩
  · rw [(c2_stage_order metadataSample).1 ["Pid", "Tid", "Name", "Extra"] rfl]; rfl
  · exact (c2_stage_order resolvedSample).2.1 (stageBFields schedFormat) rfl
  · exact (c2_stage_order resolvedSample).2.2.1 schedFormat rfl rfl
  · exact (c2_stage_order bareSample).2.2.2 rfl rfl

/-- C3: when Stage B decodes a sample against a Field Format with declared
common-field count K, the emitted fields are exactly the first at-most-3
fields after position K in declaration order: none of the first K declared
fields is emitted, at most 3 fields are emitted, and the i-th emitted field
is the format's field at position K + i.  K is the format's own
`common_field_count`, universally quantified — not a constant. -/
theorem c3_stage_b_skips_common (info : SampleEventInfo) (fmt : EventFormat)
    (hA : info.ehEnumerate = none) (hF : info.format = some fmt) :
    decodeSample info = DecodeOutcome.formatDecoded (stageBFields fmt) ∧
    stageBFields fmt = (fmt.fields.drop fmt.common_field_count).take 3 ∧
    (stageBFields fmt).length ≤ 3 ∧
    (∀ i, i < (stageBFields fmt).length →
      (stageBFields fmt)[i]? = fmt.fields[fmt.common_field_count + i]?) := by
  have heq : stageBFields fmt = (fmt.fields.drop fmt.common_field_count).take 3 := by
    rw [stageBFields, stageBLoop_eq_take]
  refine ⟨by simp [decodeSample, hA, hF], heq, ?_, ?_⟩
  · rw [heq]; simp [List.length_take]
  · intro i hi
    rw [heq] at hi ⊢
    have hi3 : i < 3 := by
      have := List.length_take_le 3 (fmt.fields.drop fmt.common_field_count)
      have h2 := List.length_take 3 (fmt.fields.drop fmt.common_field_count)
      omega
    rw [List.getElem?_take_of_lt hi3, List.getElem?_drop]

/-- C3 witness: against `schedFormat` (K = 4, 8 declared fields), Stage B
on `resolvedSample` emits exactly the fields at positions 4, 5 and 6 —
none of the 4 common fields. -/
theorem c3_stage_b_witness :
    decodeSample resolvedSample = DecodeOutcome.formatDecoded (stageBFields schedFormat) ∧
    stageBFields schedFormat =
      [{ name := "prev_comm", display_value := "bash" },
       { name := "prev_pid", display_value := "7" },
       { name := "prev_prio", display_value := "120" }] := by
  have h := c3_stage_b_skips_common resolvedSample schedFormat rfl rfl
  exact ⟨h.1, by rw [h.2.1]; rfl⟩

/-- C1: the statistics invariant `total_events = sample_events +
non_sample_events` is preserved by the decode loop from any state
satisfying it — each record advanced by the cursor adds 1 to
`total_events` and 1 to exactly one of `sample_events` /
`non_sample_events`, so (by the induction, which steps one loop iteration
at a time) the equality holds after every iteration and in particular in
any successfully returned statistics. -/
theorem c1_stats_invariant :
    ∀ (steps : List CursorStep) (stats : TracepointStats) (n : Nat)
      (log : List LogEntry) (s : TracepointStats) (l : List LogEntry),
    stats.total_events = stats.sample_events + stats.non_sample_events →
    processLoop steps stats n log = Except.ok (s, l) →
    s.total_events = s.sample_events + s.non_sample_events := by
  intro steps
  induction steps with
  | nil =>
    intro stats n log s l hinv hrun
    simp only [processLoop, Except.ok.injEq, Prod.mk.injEq] at hrun
    obtain ⟨h1, _⟩ := hrun
    exact h1 ▸ hinv
  | cons step rest ih =>
    intro stats n log s l hinv hrun
    cases step with
    | streamError e => simp [processLoop] at hrun
    | record ev =>
      simp only [processLoop] at hrun
      split at hrun
      · exact ih _ _ _ _ _ (by simp; omega) hrun
      · cases hsi : ev.sampleInfo with
        | error e => rw [hsi] at hrun; exact ih _ _ _ _ _ (by simp; omega) hrun
        | ok info => rw [hsi] at hrun; exact ih _ _ _ _ _ (by simp; omega) hrun

/-- C1 witness: decoding the concrete two-record stream (one non-sample,
one sample) from default statistics returns statistics with
`total_events = 2`, `sample_events = 1`, `non_sample_events = 1`,
satisfying the invariant. -/
theorem c1_stats_invariant_witness :
    (TracepointStats.mk 2 1 1).total_events =
      (TracepointStats.mk 2 1 1).sample_events +
      (TracepointStats.mk 2 1 1).non_sample_events :=
  c1_stats_invariant mixedStream TracepointStats.default 0 []
    (TracepointStats.mk 2 1 1) mixedLog rfl rfl

/-- C4: a sample record whose sample-event-info resolution fails is
counted (both `total_events` and `sample_events` are incremented — it was
classified as Sample before resolution), then skipped, and the loop
continues with the remaining stream: processing the failed record is
exactly processing the rest from the incremented state.  The decode is not
aborted. -/
theorem c4_unresolved_sample_recoverable (ev : EventRecord)
    (rest : List CursorStep) (stats : TracepointStats) (n : Nat)
    (log : List LogEntry) (e : String)
    (hty : ev.header.ty = PerfEventHeaderType.Sample)
    (hres : ev.sampleInfo = Except.error e) :
    processLoop (CursorStep.record ev :: rest) stats n log =
      processLoop rest
        { stats with total_events := stats.total_events + 1,
                     sample_events := stats.sample_events + 1 }
        (n + 1)
        (if n + 1 ≤ 5 then log ++ [LogEntry.sampleInfoError (n + 1) e] else log) := by
  simp [processLoop, hty, hres]

/-- C4 witness: the stream whose first record is the unresolvable sample
`sampleRecA` followed by the resolvable `sampleRecB` decodes to
`total_events = 2`, `sample_events = 2` — the failed record was counted
as a sample, skipped, and the second record was still processed. -/
theorem c4_unresolved_sample_witness :
    processLoop (CursorStep.record sampleRecA :: [CursorStep.record sampleRecB])
        TracepointStats.default 0 [] =
      processLoop [CursorStep.record sampleRecB]
        (TracepointStats.mk 1 1 0) 1
        [LogEntry.sampleInfoError 1 "unknown id"] :=
  c4_unresolved_sample_recoverable sampleRecA [CursorStep.record sampleRecB]
    TracepointStats.default 0 [] "unknown id" rfl rfl

/-- C5 counterexample (refuting "the Statistics accumulated up to that
point are still discoverable by the caller"): two capture files that agree
only in ending with the same stream corruption — one having accumulated a
processed record before the corruption point, the other none — make
`read_tracepoint_file` return the *identical* error value, so no function
of the caller-visible result can recover the accumulated statistics; the
third conjunct records that those accumulated statistics genuinely
differ. -/
theorem c5_stats_not_discoverable :
    read_tracepoint_file corruptedAfterOneWorld "trace.data" =
      read_tracepoint_file corruptedAtStartWorld "trace.data" ∧
    read_tracepoint_file corruptedAfterOneWorld "trace.data" =
      Except.error (ReadError.streamAbort "Error reading event: bad framing") ∧
    processLoop [CursorStep.record sampleRecA] TracepointStats.default 0 [] ≠
      processLoop ([] : List CursorStep) TracepointStats.default 0 [] := by
  refine ⟨rfl, rfl, ?_⟩
  intro h
  simp [processLoop, sampleRecA, TracepointStats.default] at h

/-- C5 as amended: when the cursor reports a stream error, the decode loop
aborts at the point of corruption with a fatal error whose value is the
error message alone — independent of everything processed before it — so
the statistics accumulated up to that point are discarded, not returned to
the caller. -/
theorem c5_abort_discards_stats :
    ∀ (pre : List CursorStep) (e : String) (tail : List CursorStep)
      (stats : TracepointStats) (n : Nat) (log : List LogEntry),
    (∀ s ∈ pre, ∃ ev, s = CursorStep.record ev) →
    processLoop (pre ++ CursorStep.streamError e :: tail) stats n log =
      Except.error ("Error reading event: " ++ e) := by
  intro pre e tail
  induction pre with
  | nil => intro stats n log _; simp [processLoop]
  | cons s pre ih =>
    intro stats n log hpre
    obtain ⟨ev, rfl⟩ := hpre s (List.mem_cons_self s pre)
    have hpre' : ∀ x ∈ pre, ∃ ev, x = CursorStep.record ev :=
      fun x hx => hpre x (List.mem_cons_of_mem _ hx)
    rw [List.cons_append]
    simp only [processLoop]
    split
    · exact ih _ _ _ hpre'
    · cases hsi : ev.sampleInfo with
      | error e2 => exact ih _ _ _ hpre'
      | ok info => exact ih _ _ _ hpre'

/-- C5 amended-claim witness: one well-formed record followed by a framing
error yields exactly the bare error message, from default statistics. -/
theorem c5_abort_discards_stats_witness :
    processLoop ([CursorStep.record sampleRecB] ++
        CursorStep.streamError "bad framing" :: []) TracepointStats.default 0 [] =
      Except.error ("Error reading event: " ++ "bad framing") :=
  c5_abort_discards_stats [CursorStep.record sampleRecB] "bad framing" []
    TracepointStats.default 0 []
    (by intro s hs; rw [List.mem_singleton] at hs; exact ⟨sampleRecB, hs⟩)

/-- C6: when the path does not exist, `read_tracepoint_file` fails with
the `File not found` error immediately.  The world's `openFile` (the
container open/parse step) is universally quantified and unconstrained, so
the result is reached without any open or header parse being consulted. -/
theorem c6_missing_path_fails_first (w : FsWorld) (file_path : String)
    (h : w.pathExists file_path = false) :
    read_tracepoint_file w file_path =
      Except.error (ReadError.fileNotFound file_path) := by
  simp [read_tracepoint_file, h]

/-- C6 witness: a concrete nonexistent path fails with `File not found`
even though the world's open step would have succeeded. -/
theorem c6_missing_path_witness :
    read_tracepoint_file missingWorld "/nonexistent/file.data" =
      Except.error (ReadError.fileNotFound "/nonexistent/file.data") :=
  c6_missing_path_fails_first missingWorld "/nonexistent/file.data" rfl

/-- C7: a capture file that opens successfully but contains no event
records decodes successfully with all statistics zero — in particular
`total_events = 0` — and is not treated as an error. -/
theorem c7_empty_file_ok (w : FsWorld) (file_path : String)
    (file : PerfDataFile)
    (hex : w.pathExists file_path = true)
    (hopen : w.openFile file_path = Except.ok file)
    (hev : file.events = []) :
    read_tracepoint_file w file_path =
      Except.ok (TracepointStats.mk 0 0 0) := by
  simp [read_tracepoint_file, hex, hopen, hev, processLoop, TracepointStats.default]

/-- C7 witness: the concrete header-only file decodes to
`total_events = 0` successfully. -/
theorem c7_empty_file_witness :
    read_tracepoint_file presentWorld "empty.data" =
      Except.ok (TracepointStats.mk 0 0 0) :=
  c7_empty_file_ok presentWorld "empty.data" emptyFile rfl rfl rfl

/-- C9: the decode result is a function only of the file: any two
environments that agree on the path's existence and on the opened
container's contents (the unmodified file) produce equal results — in
particular, re-running the decode on the same file yields identical
statistics. -/
theorem c9_decode_deterministic (w1 w2 : FsWorld) (file_path : String)
    (hex : w1.pathExists file_path = w2.pathExists file_path)
    (hopen : w1.openFile file_path = w2.openFile file_path) :
    read_tracepoint_file w1 file_path = read_tracepoint_file w2 file_path := by
  simp only [read_tracepoint_file, hex, hopen]

/-- C9 witness: two worlds that differ away from "empty.data" but hold the
same file at it decode it identically. -/
theorem c9_decode_deterministic_witness :
    read_tracepoint_file presentWorld "empty.data" =
      read_tracepoint_file
        { pathExists := fun _ => true,
          openFile := fun _ => Except.ok emptyFile } "empty.data" :=
  c9_decode_deterministic presentWorld
    { pathExists := fun _ => true, openFile := fun _ => Except.ok emptyFile }
    "empty.data" (by decide) rfl

/-- C10: the `File not found` error is tied exactly to nonexistence — a
path that exists but whose container cannot be opened fails with the
`Failed to open perf.data file` error carrying the open failure's cause,
and conversely a `File not found` result can only arise from a
nonexistent path. -/
theorem c10_open_failure_channel (w : FsWorld) (file_path : String) :
    (∀ e, w.pathExists file_path = true → w.openFile file_path = Except.error e →
      read_tracepoint_file w file_path = Except.error (ReadError.openFailed e)) ∧
    (∀ q, read_tracepoint_file w file_path =
        Except.error (ReadError.fileNotFound q) →
      w.pathExists file_path = false) := by
  constructor
  · intro e hex hopen
    simp [read_tracepoint_file, hex, hopen]
  · intro q h
    by_cases hex : w.pathExists file_path = true
    · exfalso
      simp only [read_tracepoint_file, hex, Bool.true_eq_false, not_true_eq_false,
        if_false] at h
      cases ho : w.openFile file_path with
      | error e => rw [ho] at h; simp at h
      | ok file =>
        rw [ho] at h
        cases hp : processLoop file.events TracepointStats.default 0 [] with
        | error m => simp [hp] at h
        | ok p => cases p; simp [hp] at h
    · simpa using hex

/-- C10 witness: a world whose path exists but whose container open fails
surfaces the open-failure error with its cause; and a conclusion of
nonexistence drawn, via the theorem, from a concrete `File not found`
result. -/
theorem c10_open_failure_witness :
    read_tracepoint_file badOpenWorld "corrupt.data" =
      Except.error (ReadError.openFailed "bad magic") ∧
    missingWorld.pathExists "/nonexistent/file.data" = false :=
  ⟨(c10_open_failure_channel badOpenWorld "corrupt.data").1 "bad magic" rfl rfl,
   (c10_open_failure_channel missingWorld "/nonexistent/file.data").2
     "/nonexistent/file.data" rfl⟩

end Profiler
